import Mathlib

/-!
Verification of the SciSciNet Dartmouth agent backend pipeline
(`app/agent.py`): the plan resolver (`planner`, lines 128-253), the data
aggregator (`data_agent`, `_year_rows`, `_field_rows`, lines 256-340) and the
visualization renderer (`viz_agent`, lines 343-431).

Modelling conventions:
- JSON values (the values held by the Python dicts flowing through the
  pipeline) are the inductive type `JVal`.  Python `None` is `JVal.jnull`.
- Python `float` is modelled as `Rat` (exact rationals); no claim below
  depends on IEEE rounding or on float formatting.
- Python exceptions are modelled with `Except String`; `try/except` blocks
  (the `_to_int` / `_to_float` helpers) recover into their default values.
- The regular expressions of the deterministic pattern overrides
  (`_parse_compare_ranges`, `_parse_top_k`, `_parse_field_score_min`,
  `_parse_field_level`, `_parse_doctype`) are modelled by hand-rolled
  scanners implementing Python `re.search` semantics (leftmost match, lazy
  dot not crossing newlines, greedy classes, word boundaries) for these
  specific patterns; character classes (`\s`, `\w`, `str.lower`) are
  modelled over their ASCII semantics.
- The external text-interpretation call (the OpenAI request in `planner`)
  is out of scope: the resolver is modelled as a function of the user text,
  the already-parsed interpretation object, and the optional previous plan.
- The aggregation backend (`papers_by_year` / `papers_by_field` from
  `app/queries.py`) is an opaque parameter (`Backend`), per the query
  contract in the specification.
-/

/-- A JSON value, as produced by `json.loads` in `planner` and threaded
through the plan dicts. -/
inductive JVal where
  | jnull : JVal
  | jbool : Bool → JVal
  | jint : Int → JVal
  | jfloat : Rat → JVal
  | jstr : String → JVal
  | jarr : List JVal → JVal
  | jobj : List (String × JVal) → JVal

/-- A JSON object: the Python dicts (`plan`, `prev_plan`).  Lookup is
last-occurrence-wins, matching `json.loads` duplicate-key behavior; an
object produced by Python has distinct keys anyway. -/
abbrev JObj := List (String × JVal)

/-- Python truthiness (`bool(x)` / `if x:`) on JSON-derived values. -/
def pyTruthy : JVal → Bool
  | .jnull => false
  | .jbool b => b
  | .jint n => n != 0
  | .jfloat q => q != 0
  | .jstr s => !s.isEmpty
  | .jarr xs => !xs.isEmpty
  | .jobj fs => !fs.isEmpty

/-- Python `\s` (ASCII range): the whitespace characters of `str.strip`
and of the regex class. -/
def isPySpace (c : Char) : Bool :=
  c == ' ' || c == '\t' || c == '\n' || c == '\r' || c == '\x0b' || c == '\x0c'

/-- Python regex `\w` (ASCII range): letters, digits, underscore. -/
def isWordChar (c : Char) : Bool :=
  c.isAlpha || c.isDigit || c == '_'

/-- Python `str.lower` (ASCII range). -/
def pyLower (s : String) : String :=
  String.mk (s.toList.map Char.toLower)

/-- `_is_empty_str` (agent.py line 78): a `str` that is empty or whitespace
only (`isinstance(x, str) and not x.strip()`). -/
def isBlankStr : JVal → Bool
  | .jstr s => s.toList.all isPySpace
  | _ => false

/-- Python `int(x)` on a string: strip whitespace, optional sign, decimal
digits.  (Underscore digit separators are not modelled; no claim exercises
them.)  Returns `none` where Python raises `ValueError`. -/
def pyIntOfString (s : String) : Option Int :=
  let l := ((s.toList.dropWhile isPySpace).reverse.dropWhile isPySpace).reverse
  let (sign, digits) : Int × List Char :=
    match l with
    | '-' :: r => (-1, r)
    | '+' :: r => (1, r)
    | _ => (1, l)
  if digits.isEmpty || !digits.all Char.isDigit then none
  else some (sign * (digits.foldl (fun a c => a * 10 + (c.toNat - 48)) 0 : Nat))

/-- Truncation toward zero, the behavior of Python `int()` on a float. -/
def ratTrunc (q : Rat) : Int :=
  if 0 ≤ q then ⌊q⌋ else ⌈q⌉

/-- Python `int(x)` on a JSON value; `none` where Python raises. -/
def pyIntOpt : JVal → Option Int
  | .jint n => some n
  | .jbool b => some (if b then 1 else 0)
  | .jfloat q => some (ratTrunc q)
  | .jstr s => pyIntOfString s
  | _ => none

/-- Python `float(x)` on a string: strip, optional sign, `digits`,
`digits.digits` or `.digits`.  (Exponent and inf/nan forms are not
modelled; no claim exercises them.) -/
def pyFloatOfString (s : String) : Option Rat :=
  let l := ((s.toList.dropWhile isPySpace).reverse.dropWhile isPySpace).reverse
  let (sign, body) : Rat × List Char :=
    match l with
    | '-' :: r => (-1, r)
    | '+' :: r => (1, r)
    | _ => (1, l)
  let ip := body.takeWhile Char.isDigit
  let rest := body.dropWhile Char.isDigit
  let ipVal : Rat := ((ip.foldl (fun a c => a * 10 + (c.toNat - 48)) 0 : Nat) : Rat)
  match rest with
  | [] => if ip.isEmpty then none else some (sign * ipVal)
  | '.' :: r2 =>
    let fp := r2.takeWhile Char.isDigit
    let rest2 := r2.dropWhile Char.isDigit
    if !rest2.isEmpty || (ip.isEmpty && fp.isEmpty) then none
    else
      let fpVal : Rat := ((fp.foldl (fun a c => a * 10 + (c.toNat - 48)) 0 : Nat) : Rat)
      some (sign * (ipVal + fpVal / ((10 : Rat) ^ fp.length)))
  | _ => none

/-- Python `float(x)` on a JSON value; `none` where Python raises. -/
def pyFloatOpt : JVal → Option Rat
  | .jint n => some (n : Rat)
  | .jfloat q => some q
  | .jbool b => some (if b then 1 else 0)
  | .jstr s => pyFloatOfString s
  | _ => none

/-- `_to_int` (agent.py lines 213-217): `int(x)` with the exception
swallowed into a default. -/
def toIntDef (x : JVal) (d : Int) : Int :=
  (pyIntOpt x).getD d

/-- `_to_float` (agent.py lines 219-223). -/
def toFloatDef (x : JVal) (d : Rat) : Rat :=
  (pyFloatOpt x).getD d

/-- Python `x == s` for a string literal `s`: only a `str` can compare
equal to a `str`. -/
def jvalEqStr (v : JVal) (s : String) : Bool :=
  match v with
  | .jstr t => t == s
  | _ => false

/-- Dict lookup `d[k]`-style returning `Option`; last occurrence wins. -/
def jget (o : JObj) (k : String) : Option JVal :=
  o.foldl (fun acc kv => if kv.1 == k then some kv.2 else acc) none

/-- Python `dict.get(k)`: `None` when the key is absent. -/
def jgetD (o : JObj) (k : String) : JVal :=
  (jget o k).getD JVal.jnull

/-! ### Regex scanners (the deterministic pattern overrides)

Each Python regex used by the `_parse_*` helpers is modelled by a scanner
over `List Char` with `re.search` semantics: candidate start positions are
tried left to right (`searchPos`), carrying the previous character for
word-boundary (`\b`) tests; the lazy `.*?` segments inside the compare
pattern advance one character at a time and refuse to cross a newline
(`searchPosNoNL`), since `.` does not match `\n`. -/

/-- Leftmost search: try the matcher at every position, left to right.
`prev` is the character immediately before the current position (for
word-boundary tests). -/
def searchPos (try_ : Option Char → List Char → Option α) :
    Option Char → List Char → Option α
  | prev, [] => try_ prev []
  | prev, c :: rest =>
    match try_ prev (c :: rest) with
    | some a => some a
    | none => searchPos try_ (some c) rest

/-- Search advancing through characters consumed by a lazy `.*?`: stops at
a newline because `.` does not match `\n`. -/
def searchPosNoNL (try_ : Option Char → List Char → Option α) :
    Option Char → List Char → Option α
  | prev, [] => try_ prev []
  | prev, c :: rest =>
    match try_ prev (c :: rest) with
    | some a => some a
    | none => if c == '\n' then none else searchPosNoNL try_ (some c) rest

/-- Match exactly `n` decimal digits (`\d{n}`), returning them. -/
def takeDigits : Nat → List Char → Option (List Char × List Char)
  | 0, l => some ([], l)
  | _ + 1, [] => none
  | n + 1, c :: rest =>
    if c.isDigit then (takeDigits n rest).map (fun p => (c :: p.1, p.2))
    else none

/-- Numeric value of a digit string (leading zeros allowed, as in
Python `int`). -/
def digitsVal (ds : List Char) : Nat :=
  ds.foldl (fun a c => a * 10 + (c.toNat - 48)) 0

/-- Match a literal character sequence. -/
def matchLit : List Char → List Char → Option (List Char)
  | [], l => some l
  | _ :: _, [] => none
  | c :: w, x :: l => if x == c then matchLit w l else none

/-- `\b` after a match: the next character is not a word character (or the
input ends). -/
def boundaryAfter : List Char → Bool
  | [] => true
  | c :: _ => !isWordChar c

/-- `\b` before a match that starts with a word character: the previous
character is absent or not a word character. -/
def boundaryBefore (prev : Option Char) : Bool :=
  match prev with
  | some c => !isWordChar c
  | none => true

/-- `(\d{4})\s*-\s*(\d{4})`: a hyphen-joined four-digit year pair.  The
pattern is deterministic (fixed digit counts; greedy `\s*` followed by a
non-space).  Returns both values, the last consumed character and the
rest. -/
def matchYearPair (l : List Char) : Option (Nat × Nat × Char × List Char) := do
  let (d1, r1) ← takeDigits 4 l
  let r2 := r1.dropWhile isPySpace
  match r2 with
  | '-' :: r3 =>
    let r4 := r3.dropWhile isPySpace
    let (d2, r5) ← takeDigits 4 r4
    some (digitsVal d1, digitsVal d2, d2.getLastD '0', r5)
  | _ => none

/-- One alternative of `\b(vs|versus|compare)\b`: literal word followed by
a word boundary. -/
def tryCmpAlt (w : List Char) (l : List Char) : Option (Char × List Char) :=
  match matchLit w l with
  | some r => if boundaryAfter r then some (w.getLastD 'x', r) else none
  | none => none

/-- `\b(vs|versus|compare)\b` at the current position.  The alternatives
are mutually exclusive on their first two characters, so trying them in
order is exactly Python's alternation backtracking. -/
def matchCmpWord (prev : Option Char) (l : List Char) : Option (Char × List Char) :=
  if !boundaryBefore prev then none
  else
    tryCmpAlt "vs".toList l <|> tryCmpAlt "versus".toList l <|>
      tryCmpAlt "compare".toList l

/-- The full compare pattern
`(\d{4})\s*-\s*(\d{4}).*?\b(vs|versus|compare)\b.*?(\d{4})\s*-\s*(\d{4})`
anchored at the current position; the two `.*?` segments are lazy and
cannot cross a newline. -/
def tryCompareAt (_prev : Option Char) (l : List Char) :
    Option (Nat × Nat × Nat × Nat) := do
  let (a1, a2, c4, r1) ← matchYearPair l
  searchPosNoNL
    (fun p l2 => do
      let (lc, r2) ← matchCmpWord p l2
      searchPosNoNL
        (fun _ l3 =>
          (matchYearPair l3).map (fun q => (a1, a2, q.1, q.2.1)))
        (some lc) r2)
    (some c4) r1

/-- `_parse_compare_ranges` (agent.py lines 82-93): `re.search` of the
compare pattern over the lowercased text. -/
def parseCompareRanges (t : String) : Option (Nat × Nat × Nat × Nat) :=
  searchPos tryCompareAt none (pyLower t).toList

/-- `[_\s-]`, the separator class inside `top[_\s-]*k`,
`field[_\s-]*score[_\s-]*min` and `field[_\s-]*level`. -/
def isSepChar (c : Char) : Bool :=
  c == '_' || c == '-' || isPySpace c

/-- `\s*[:=]?\s*`, the glue before the numeric group. -/
def skipSepColon (l : List Char) : List Char :=
  let r := l.dropWhile isPySpace
  let r2 := match r with
    | c :: rest => if c == ':' || c == '=' then rest else r
    | [] => r
  r2.dropWhile isPySpace

/-- `(\d{lo..hi})\b`: a run of digits.  The greedy repetition backtracks
against the trailing `\b`, which fails for every split of a digit run, so
the match succeeds exactly when the maximal run has length in `[lo, hi]`
and is followed by a non-word character. -/
def matchDigitsBounded (lo hi : Nat) (l : List Char) : Option Nat :=
  let ds := l.takeWhile Char.isDigit
  let rest := l.dropWhile Char.isDigit
  if lo ≤ ds.length && ds.length ≤ hi && boundaryAfter rest then
    some (digitsVal ds)
  else none

/-- `\btop[_\s-]*k\s*[:=]?\s*(\d{1,4})\b` at the current position. -/
def tryTopKAt (prev : Option Char) (l : List Char) : Option Nat :=
  if !boundaryBefore prev then none
  else do
    let r1 ← matchLit "top".toList l
    let r2 := r1.dropWhile isSepChar
    match r2 with
    | 'k' :: r3 => matchDigitsBounded 1 4 (skipSepColon r3)
    | _ => none

/-- `_parse_top_k` (agent.py lines 96-101). -/
def parseTopK (t : String) : Option Int :=
  (searchPos tryTopKAt none (pyLower t).toList).map Int.ofNat

/-- `\b(field[_\s-]*level|level)\s*[:=]?\s*(\d{1,2})\b` at the current
position.  The alternatives start with distinct characters, so ordered
trying matches Python's backtracking. -/
def tryLevelAt (prev : Option Char) (l : List Char) : Option Nat :=
  if !boundaryBefore prev then none
  else
    let cont := fun r => matchDigitsBounded 1 2 (skipSepColon r)
    (do
      let r1 ← matchLit "field".toList l
      let r2 ← matchLit "level".toList (r1.dropWhile isSepChar)
      cont r2) <|>
    (do
      let r1 ← matchLit "level".toList l
      cont r1)

/-- `_parse_field_level` (agent.py lines 112-117). -/
def parseFieldLevel (t : String) : Option Int :=
  (searchPos tryLevelAt none (pyLower t).toList).map Int.ofNat

/-- The numeric group `(0?\.\d+|\d+(\.\d+)?)\b` of the score pattern.
The first alternative needs a dot (optionally preceded by a single `0`);
the second takes the maximal digit run, optionally a fraction — if the
fraction's trailing `\b` fails the fraction is abandoned (the dot itself
is a boundary), and if the bare run's `\b` fails the match fails. -/
def matchScoreNumber (l : List Char) : Option Rat :=
  let frac1 : List Char → Option Rat := fun r =>
    let ds := r.takeWhile Char.isDigit
    let rest := r.dropWhile Char.isDigit
    if 1 ≤ ds.length && boundaryAfter rest then
      some (((digitsVal ds : Nat) : Rat) / ((10 : Rat) ^ ds.length))
    else none
  let alt1 : Option Rat :=
    match l with
    | '0' :: '.' :: r => frac1 r
    | '.' :: r => frac1 r
    | _ => none
  match alt1 with
  | some q => some q
  | none =>
    let ds := l.takeWhile Char.isDigit
    let rest := l.dropWhile Char.isDigit
    if ds.isEmpty then none
    else
      let ipVal : Rat := ((digitsVal ds : Nat) : Rat)
      match rest with
      | '.' :: r2 =>
        match frac1 r2 with
        | some f => some (ipVal + f)
        | none => some ipVal
      | _ => if boundaryAfter rest then some ipVal else none

/-- `\b(field[_\s-]*score[_\s-]*min|threshold|score)\s*[:=]?\s*(number)\b`
at the current position; alternatives start with distinct characters. -/
def tryScoreAt (prev : Option Char) (l : List Char) : Option Rat :=
  if !boundaryBefore prev then none
  else
    let cont := fun r => matchScoreNumber (skipSepColon r)
    (do
      let r1 ← matchLit "field".toList l
      let r2 ← matchLit "score".toList (r1.dropWhile isSepChar)
      let r3 ← matchLit "min".toList (r2.dropWhile isSepChar)
      cont r3) <|>
    (do
      let r1 ← matchLit "threshold".toList l
      cont r1) <|>
    (do
      let r1 ← matchLit "score".toList l
      cont r1)

/-- `_parse_field_score_min` (agent.py lines 104-109). -/
def parseFieldScoreMin (t : String) : Option Rat :=
  searchPos tryScoreAt none (pyLower t).toList

/-- One whole-word occurrence test: `re.search(rf"\b{k}\b", t)` for a
lowercase alphabetic keyword `k`. -/
def tryWordAt (w : List Char) (prev : Option Char) (l : List Char) : Option Unit :=
  if !boundaryBefore prev then none
  else
    match matchLit w l with
    | some r => if boundaryAfter r then some () else none
    | none => none

/-- Whether `w` occurs as a whole word in `t` (`t` already lowercased). -/
def containsWord (t : String) (w : String) : Bool :=
  (searchPos (tryWordAt w.toList) none t.toList).isSome

/-- The fixed doctype vocabulary, in priority order (agent.py line 122). -/
def docVocab : List String :=
  ["article", "preprint", "conference", "journal", "proceedings"]

/-- `_parse_doctype` (agent.py lines 120-125): the first vocabulary word
occurring as a whole word in the lowercased text. -/
def parseDoctype (t : String) : Option String :=
  docVocab.find? (fun k => containsWord (pyLower t) k)

/-! ### The plan resolver (`planner`, agent.py lines 128-253)

The external interpretation call (lines 129-144) is out of scope; the
resolver is modelled from the point where `plan = json.loads(raw)` has
produced a dict (`interp`), together with the raw user text and the
optional previous plan.  Every step of the repair pipeline touches only
its own key(s) of the `plan` dict, so the dict mutation is modelled
per-field; the line references tie each definition to its statements. -/

/-- The resolved plan (the dict returned by `planner`, restricted to the
twelve specified plan fields; types reflect the normalization guarantees
of lines 204-251). -/
@[ext]
structure ResolvedPlan where
  chart_type : JVal
  year_from : Int
  year_to : Int
  doctype : JVal
  field_level : Int
  field_score_min : Rat
  top_k : Int
  color : JVal
  mark : String
  compare : Bool
  compare_year_from : Option Int
  compare_year_to : Option Int

/-- The twelve plan keys (line 147 plus `inherit_keys`, lines 152-164). -/
def planKeys : List String :=
  ["chart_type", "year_from", "year_to", "doctype", "field_level",
   "field_score_min", "top_k", "color", "mark", "compare",
   "compare_year_from", "compare_year_to"]

/-- `if prev_plan:` — a `None` or empty previous-plan dict is falsy. -/
def prevTruthy : Option JObj → Bool
  | some l => !l.isEmpty
  | none => false

/-- `k not in plan or plan[k] is None` (agent.py line 166). -/
def absentOrNull (v : Option JVal) : Bool :=
  match v with
  | none => true
  | some .jnull => true
  | some _ => false

/-- Field inheritance (lines 150-167): if `prev_plan` is truthy and the
interpreted value is absent or `None`, the key is set to
`prev_plan.get(k)` (which may itself be `None`). -/
def inheritedField (i : JObj) (p : Option JObj) (k : String) : Option JVal :=
  let v := jget i k
  if prevTruthy p && absentOrNull v then
    some (jgetD (p.getD []) k)
  else v

/-- Inheritance followed by `setdefault` (lines 169-180): the default
applies only when the key is absent (a present `None` survives, to be
repaired by the later coercions). -/
def fieldOr (i : JObj) (p : Option JObj) (k : String) (d : JVal) : JVal :=
  (inheritedField i p k).getD d

/-- Chart-type fallback (lines 146-148): a falsy `chart_type` is replaced
by `prev_plan.get("chart_type")` when `prev_plan` is truthy, else by
`"papers_by_year"`. -/
def chartTypeField (i : JObj) (p : Option JObj) : JVal :=
  let v := jgetD i "chart_type"
  if pyTruthy v then v
  else if prevTruthy p then jgetD (p.getD []) "chart_type"
  else JVal.jstr "papers_by_year"

/-- String normalization for `doctype`/`color` (lines 204-208): an empty
or whitespace-only string becomes `None`. -/
def normBlankToNull (v : JVal) : JVal :=
  if isBlankStr v then JVal.jnull else v

/-- Mark repair (lines 209-210 and 231-233): a blank mark becomes
`"bar"`; any value other than the three valid tokens becomes `"bar"`. -/
def normMark (v : JVal) : String :=
  match (if isBlankStr v then JVal.jstr "bar" else v) with
  | .jstr s => if s == "bar" || s == "line" || s == "area" then s else "bar"
  | _ => "bar"

/-- The raw `compare` value before `bool()` (default fill line 178,
pattern override lines 183-185). -/
def compareRaw (t : String) (i : JObj) (p : Option JObj) : JVal :=
  match parseCompareRanges t with
  | some _ => JVal.jbool true
  | none => fieldOr i p "compare" (JVal.jbool false)

/-- The raw `compare_year_from` value (default line 179, override
line 186). -/
def compareFromRaw (t : String) (i : JObj) (p : Option JObj) : JVal :=
  match parseCompareRanges t with
  | some (_, _, b1, _) => JVal.jint b1
  | none => fieldOr i p "compare_year_from" JVal.jnull

/-- The raw `compare_year_to` value (default line 180, override
line 186). -/
def compareToRaw (t : String) (i : JObj) (p : Option JObj) : JVal :=
  match parseCompareRanges t with
  | some (_, _, _, b2) => JVal.jint b2
  | none => fieldOr i p "compare_year_to" JVal.jnull

/-- Python `x is None` on a JSON value. -/
def isNullV : JVal → Bool
  | .jnull => true
  | _ => false

/-- Compare consistency (lines 235-251): `compare` is coerced with
`bool()`; when truthy, both bounds must be non-`None` and coercible to
`int` (via `_to_int(x, None)`), else compare is reset to `False` with
both bounds `None`; when falsy, both bounds are forced to `None`. -/
def compareTriple (t : String) (i : JObj) (p : Option JObj) :
    Bool × Option Int × Option Int :=
  if pyTruthy (compareRaw t i p) then
    if isNullV (compareFromRaw t i p) || isNullV (compareToRaw t i p) then
      (false, none, none)
    else
      match pyIntOpt (compareFromRaw t i p), pyIntOpt (compareToRaw t i p) with
      | some a, some b => (true, some a, some b)
      | _, _ => (false, none, none)
  else (false, none, none)

/-- The repair pipeline of `planner` (agent.py lines 146-253), from the
parsed interpretation object onward: chart-type fallback, inheritance,
defaults, deterministic pattern overrides, string normalization, numeric
coercion, mark repair and compare consistency.  Every Python operation in
this region either cannot raise or catches its own exception
(`_to_int` / `_to_float`), so the model is a total function. -/
def resolvePlan (t : String) (i : JObj) (p : Option JObj) : ResolvedPlan :=
  let cmp := parseCompareRanges t
  let trip := compareTriple t i p
  { chart_type := chartTypeField i p
    year_from := toIntDef
      (match cmp with
       | some (a1, _, _, _) => JVal.jint a1
       | none => fieldOr i p "year_from" (JVal.jint 2020)) 2020
    year_to := toIntDef
      (match cmp with
       | some (_, a2, _, _) => JVal.jint a2
       | none => fieldOr i p "year_to" (JVal.jint 2024)) 2024
    doctype := normBlankToNull
      (match parseDoctype t with
       | some k => JVal.jstr k
       | none => fieldOr i p "doctype" JVal.jnull)
    field_level := toIntDef
      (match parseFieldLevel t with
       | some n => JVal.jint n
       | none => fieldOr i p "field_level" (JVal.jint 1)) 1
    field_score_min := toFloatDef
      (match parseFieldScoreMin t with
       | some q => JVal.jfloat q
       | none => fieldOr i p "field_score_min" (JVal.jfloat (3 / 10))) (3 / 10)
    top_k := toIntDef
      (match parseTopK t with
       | some n => JVal.jint n
       | none => fieldOr i p "top_k" (JVal.jint 25)) 25
    color := normBlankToNull (fieldOr i p "color" JVal.jnull)
    mark := normMark (fieldOr i p "mark" (JVal.jstr "bar"))
    compare := trip.1
    compare_year_from := trip.2.1
    compare_year_to := trip.2.2 }

/-- An optional integer back to its JSON form (for serializing a plan as
the next turn's `prev_plan`). -/
def optIntToJVal : Option Int → JVal
  | some n => JVal.jint n
  | none => JVal.jnull

/-- A resolved plan rendered back as the dict that `planner` returns and
the caller sends back as `prev_plan` on the next turn. -/
def planToDict (P : ResolvedPlan) : JObj :=
  [("chart_type", P.chart_type),
   ("year_from", JVal.jint P.year_from),
   ("year_to", JVal.jint P.year_to),
   ("doctype", P.doctype),
   ("field_level", JVal.jint P.field_level),
   ("field_score_min", JVal.jfloat P.field_score_min),
   ("top_k", JVal.jint P.top_k),
   ("color", P.color),
   ("mark", JVal.jstr P.mark),
   ("compare", JVal.jbool P.compare),
   ("compare_year_from", optIntToJVal P.compare_year_from),
   ("compare_year_to", optIntToJVal P.compare_year_to)]

/-! ### The data aggregator (`data_agent`, agent.py lines 256-340) -/

/-- The aggregation backend (`papers_by_year` / `papers_by_field` from
`app/queries.py`), an external collaborator per the query contract: time
aggregation returns `(year, count)` pairs, label aggregation returns
`(label, count)` pairs.  The `doctype` argument carries the plan's value
(already `or None`-normalized). -/
structure Backend where
  papers_by_year : Int → Int → JVal → List (Int × Int)
  papers_by_field : Int → Int → Int → Rat → JVal → Int → List (String × Int)

/-- One result row of the aggregator (`{"year": ..., "n_papers": ...}`,
`{"field": ..., "n_papers": ...}`, optionally tagged with a `group`). -/
inductive Row where
  | year : Int → Int → Row
  | gyear : String → Int → Int → Row
  | fld : String → Int → Row
  | gfld : String → String → Int → Row
deriving DecidableEq

/-- Generic Python-dict lookup on an association list built by a dict
comprehension: the last occurrence of a key wins. -/
def pyDictGet [BEq κ] (l : List (κ × ν)) (k : κ) : Option ν :=
  l.foldl (fun acc kv => if kv.1 == k then some kv.2 else acc) none

/-- `range(year_from, year_to + 1)` over integers. -/
def yearRange (a b : Int) : List Int :=
  (List.range (b + 1 - a).toNat).map (fun (k : Nat) => a + (k : Int))

/-- `_year_rows` (agent.py lines 256-263): query the backend, then
densify to one row per integer year in `[year_from, year_to]`, count 0
for absent years. -/
def yearRows (bk : Backend) (yf yt : Int) (dt : JVal) : List Row :=
  let m := bk.papers_by_year yf yt dt
  (yearRange yf yt).map (fun y => Row.year y ((pyDictGet m y).getD 0))

/-- `plan.get("doctype") or None` (agent.py line 289). -/
def orNull (v : JVal) : JVal :=
  if pyTruthy v then v else JVal.jnull

/-- `_field_rows` (agent.py lines 266-282): backend label query; the
`str()` / `int()` conversions are identities on the typed contract. -/
def fieldRows (bk : Backend) (yf yt : Int) (dt : JVal) (lvl : Int)
    (fsm : Rat) (tk : Int) : List (String × Int) :=
  bk.papers_by_field yf yt lvl fsm dt tk

/-- The sort key of the compare-mode ranking (agent.py line 329):
`(count_A + count_B, count_A, count_B)`. -/
def tupKey (amap bmap : List (String × Int)) (f : String) : Int × Int × Int :=
  let a := ((pyDictGet amap f).getD 0 : Int)
  let b := ((pyDictGet bmap f).getD 0 : Int)
  (a + b, a, b)

/-- Descending lexicographic comparison on sort keys: `k1` ranks at or
before `k2` (`sorted(..., reverse=True)` tuple order). -/
def keyGE (k1 k2 : Int × Int × Int) : Bool :=
  decide (k2.1 < k1.1 ∨ (k2.1 = k1.1 ∧
    (k2.2.1 < k1.2.1 ∨ (k2.2.1 = k1.2.1 ∧ k2.2.2 ≤ k1.2.2))))

/-- Insertion step of the sort. -/
def insertS (r : α → α → Bool) (x : α) : List α → List α
  | [] => [x]
  | y :: ys => if r x y then x :: y :: ys else y :: insertS r x ys

/-- Insertion sort standing in for Python `sorted`: produces a list
sorted under `r` (which is all the ranking semantics the source relies
on; Python's tie order over a `set` union is unspecified anyway). -/
def isort (r : α → α → Bool) : List α → List α
  | [] => []
  | x :: xs => insertS r x (isort r xs)

/-- First-occurrence deduplication: a deterministic stand-in for the
iteration order of `set(a_map) | set(b_map)` (agent.py line 328), whose
order Python leaves unspecified; only sort-key ties can observe the
difference. -/
def dedupFirst (l : List String) : List String :=
  go [] l
where
  go (seen : List String) : List String → List String
    | [] => []
    | x :: xs => if x ∈ seen then go seen xs else x :: go (x :: seen) xs

/-- The union of the two groups' label sets. -/
def labelUnion (a b : List (String × Int)) : List String :=
  dedupFirst (a.map Prod.fst ++ b.map Prod.fst)

/-- Python list slicing `l[:k]`: a negative `k` drops `|k|` elements from
the end. -/
def pySlice (l : List α) (k : Int) : List α :=
  if 0 ≤ k then l.take k.toNat else l.take (l.length - (-k).toNat)

/-- The kept labels of compare mode (agent.py lines 328-330): the union,
ranked descending by `tupKey`, truncated to `top_k`. -/
def keptLabels (a b : List (String × Int)) (tk : Int) : List String :=
  pySlice (isort (fun f g => keyGE (tupKey a b f) (tupKey a b g)) (labelUnion a b)) tk

/-- The payload returned by `data_agent`. -/
structure Payload where
  chart_type : JVal
  plan : ResolvedPlan
  data : List Row

mutual

/-- Python `repr` of a JSON-derived value (used inside `str` of lists and
dicts).  Float formatting is approximated by the exact rational rendered
as `num/den`; no claim depends on a float's textual form. -/
def pyRepr : JVal → String
  | .jnull => "None"
  | .jbool b => if b then "True" else "False"
  | .jint n => toString n
  | .jfloat q => toString q.num ++ "/" ++ toString q.den
  | .jstr s => "'" ++ s ++ "'"
  | .jarr xs => "[" ++ pyReprList xs ++ "]"
  | .jobj fs => "\x7b" ++ pyReprObj fs ++ "\x7d"

/-- `repr` of list elements, comma separated. -/
def pyReprList : List JVal → String
  | [] => ""
  | [x] => pyRepr x
  | x :: y :: xs => pyRepr x ++ ", " ++ pyReprList (y :: xs)

/-- `repr` of dict items, comma separated. -/
def pyReprObj : List (String × JVal) → String
  | [] => ""
  | [(k, v)] => "'" ++ k ++ "': " ++ pyRepr v
  | (k, v) :: y :: xs => "'" ++ k ++ "': " ++ pyRepr v ++ ", " ++ pyReprObj (y :: xs)

end

/-- Python `str(x)` (the f-string conversion in the error messages). -/
def pyStr : JVal → String
  | .jstr s => s
  | v => pyRepr v

/-- `data_agent` (agent.py lines 285-340).  `int()` on a `None` compare
bound raises `TypeError` (modelled as an error); an unsupported
`chart_type` raises `ValueError` naming the value (line 340). -/
def data_agent (bk : Backend) (plan : ResolvedPlan) : Except String Payload :=
  let ct := plan.chart_type
  let yf := plan.year_from
  let yt := plan.year_to
  let dt := orNull plan.doctype
  let compare := plan.compare
  if jvalEqStr ct "papers_by_year" then
    if !compare then
      Except.ok ⟨ct, plan, yearRows bk yf yt dt⟩
    else
      match plan.compare_year_from, plan.compare_year_to with
      | some cf, some ct2 =>
        let a := yearRows bk yf yt dt
        let b := yearRows bk cf ct2 dt
        Except.ok ⟨ct, plan,
          (a.map (fun r => match r with
            | Row.year y n => Row.gyear "A" y n
            | r => r)) ++
          (b.map (fun r => match r with
            | Row.year y n => Row.gyear "B" y n
            | r => r))⟩
      | _, _ => Except.error "int() argument cannot be NoneType"
  else if jvalEqStr ct "papers_by_field" then
    let lvl := plan.field_level
    let fsm := plan.field_score_min
    let tk := plan.top_k
    if !compare then
      Except.ok ⟨ct, plan,
        (fieldRows bk yf yt dt lvl fsm tk).map (fun p => Row.fld p.1 p.2)⟩
    else
      match plan.compare_year_from, plan.compare_year_to with
      | some cf, some ct2 =>
        let pool := max (tk * 5) 200
        let aRows := fieldRows bk yf yt dt lvl fsm pool
        let bRows := fieldRows bk cf ct2 dt lvl fsm pool
        let keep := keptLabels aRows bRows tk
        Except.ok ⟨ct, plan,
          (keep.map (fun f => Row.gfld "A" f ((pyDictGet aRows f).getD 0))) ++
          (keep.map (fun f => Row.gfld "B" f ((pyDictGet bRows f).getD 0)))⟩
      | _, _ => Except.error "int() argument cannot be NoneType"
  else
    Except.error ("Unsupported chart_type: " ++ pyStr ct)

/-! ### The visualization renderer (`viz_agent`, agent.py lines 343-431) -/

/-- An axis encoding channel (`x` / `y`). -/
structure AxisEnc where
  field : String
  type_ : String
  sort : Option String
  title : String
deriving DecidableEq

/-- The color encoding channel. -/
structure ColorEnc where
  field : String
  type_ : String
  title : String
deriving DecidableEq

/-- The opacity encoding: `{"condition": {"param": p, "value": v},
"value": w}`. -/
structure OpacityEnc where
  param : String
  condValue : Int
  value : Rat
deriving DecidableEq

/-- The encoding map of the chart descriptor. -/
structure Encoding where
  x : AxisEnc
  y : AxisEnc
  color : Option ColorEnc
  opacity : OpacityEnc
  tooltip : List String
deriving DecidableEq

/-- An interactive selection parameter:
`{"name": ..., "select": {"type": ..., "fields": [...]}}`. -/
structure SelectParam where
  name : String
  selectType : String
  fields : List String
deriving DecidableEq

/-- The mark: `{"type": ..., "tooltip": True}` plus an optional explicit
color (agent.py lines 352-354). -/
structure Mark where
  type_ : String
  tooltip : Bool
  color : Option JVal

/-- The Vega-Lite chart descriptor assembled by `viz_agent`. -/
structure VizSpec where
  schema : String
  description : String
  values : List Row
  params : List SelectParam
  mark : Mark
  encoding : Encoding

/-- The renderer's result: caption, plan, rows and chart descriptor. -/
structure VizOut where
  answer : String
  plan : ResolvedPlan
  data : List Row
  spec : VizSpec

/-- `f"{x}"` on an optional integer plan field (`None` prints as
`"None"`). -/
def showOptInt : Option Int → String
  | some n => toString n
  | none => "None"

/-- Python `str(float)` as used in the caption f-strings, under the
rational float model. -/
def showRat (q : Rat) : String :=
  if q.den == 1 then toString q.num ++ ".0"
  else toString q.num ++ "/" ++ toString q.den

/-- `viz_agent` (agent.py lines 343-431): pure mapping from the payload to
caption plus chart descriptor; an unsupported `chart_type` raises
`ValueError` naming the value (line 431). -/
def viz_agent (pay : Payload) : Except String VizOut :=
  let plan := pay.plan
  let data := pay.data
  let color := orNull plan.color
  let markType := if plan.mark == "" then "bar" else plan.mark
  let compare := plan.compare
  let mark : Mark :=
    ⟨markType, true, if !compare && pyTruthy color then some color else none⟩
  if jvalEqStr pay.chart_type "papers_by_year" then
    let params :=
      if compare then [⟨"pick", "point", ["group", "year"]⟩]
      else [⟨"pick", "point", ["year"]⟩]
    let encoding : Encoding :=
      { x := ⟨"year", "ordinal", none, "Year"⟩
        y := ⟨"n_papers", "quantitative", none, "Papers"⟩
        color := if compare then some ⟨"group", "nominal", "Group"⟩ else none
        opacity := ⟨"pick", 1, 35 / 100⟩
        tooltip :=
          if compare then ["group", "year", "n_papers"]
          else ["year", "n_papers"] }
    let answer :=
      if compare then
        "Papers by year (A=" ++ toString plan.year_from ++ "–" ++
          toString plan.year_to ++ ", B=" ++
          showOptInt plan.compare_year_from ++ "–" ++
          showOptInt plan.compare_year_to ++ ")."
      else
        "Papers by year (" ++ toString plan.year_from ++ "–" ++
          toString plan.year_to ++ ")."
    Except.ok ⟨answer, plan, data,
      ⟨"https://vega.github.io/schema/vega-lite/v5.json",
       "Number of Dartmouth papers by year", data, params, mark, encoding⟩⟩
  else if jvalEqStr pay.chart_type "papers_by_field" then
    let params := [⟨"pick", "point", ["field"]⟩]
    let encoding : Encoding :=
      { x := ⟨"field", "nominal", some "-y", "Field"⟩
        y := ⟨"n_papers", "quantitative", none, "Papers"⟩
        color := if compare then some ⟨"group", "nominal", "Group"⟩ else none
        opacity := ⟨"pick", 1, 35 / 100⟩
        tooltip :=
          if compare then ["group", "field", "n_papers"]
          else ["field", "n_papers"] }
    let answer :=
      if compare then
        "Papers by field (A=" ++ toString plan.year_from ++ "–" ++
          toString plan.year_to ++ ", B=" ++
          showOptInt plan.compare_year_from ++ "–" ++
          showOptInt plan.compare_year_to ++ ", level=" ++
          toString plan.field_level ++ ", score>=" ++
          showRat plan.field_score_min ++ ", top_k=" ++
          toString plan.top_k ++ ")."
      else
        "Papers by field (" ++ toString plan.year_from ++ "–" ++
          toString plan.year_to ++ ", level=" ++
          toString plan.field_level ++ ", score>=" ++
          showRat plan.field_score_min ++ ", top_k=" ++
          toString plan.top_k ++ ")."
    Except.ok ⟨answer, plan, data,
      ⟨"https://vega.github.io/schema/vega-lite/v5.json",
       "Number of Dartmouth papers by field", data, params, mark, encoding⟩⟩
  else
    Except.error ("Unsupported chart_type: " ++ pyStr pay.chart_type)

/-- `run_multi_agent` (agent.py lines 434-437), from the parsed
interpretation object onward: Resolver, then Aggregator, then Renderer. -/
def run_multi_agent (bk : Backend) (t : String) (i : JObj) (p : Option JObj) :
    Except String VizOut := do
  let plan := resolvePlan t i p
  let pay ← data_agent bk plan
  viz_agent pay

/-! ### Supporting lemmas -/

theorem insertS_length (r : α → α → Bool) (x : α) (l : List α) :
    (insertS r x l).length = l.length + 1 := by
  induction l with
  | nil => rfl
  | cons y ys ih =>
    simp only [insertS]
    split <;> simp [ih]

theorem mem_insertS (r : α → α → Bool) (x : α) (l : List α) (z : α) :
    z ∈ insertS r x l ↔ z = x ∨ z ∈ l := by
  induction l with
  | nil => simp [insertS]
  | cons y ys ih =>
    simp only [insertS]
    split
    · simp only [List.mem_cons]
      try tauto
    · simp only [List.mem_cons, ih]
      tauto

theorem insertS_pairwise (r : α → α → Bool)
    (htot : ∀ a b, r a b = true ∨ r b a = true)
    (htrans : ∀ a b c, r a b = true → r b c = true → r a c = true)
    (x : α) (l : List α) (h : l.Pairwise (fun a b => r a b = true)) :
    (insertS r x l).Pairwise (fun a b => r a b = true) := by
  induction l with
  | nil => simp [insertS]
  | cons y ys ih =>
    rcases h with _ | ⟨hy, hys⟩
    simp only [insertS]
    split
    · rename_i hxy
      refine List.Pairwise.cons ?_ (List.Pairwise.cons hy hys)
      intro z hz
      rcases List.mem_cons.mp hz with rfl | hz'
      · exact hxy
      · exact htrans x y z hxy (hy z hz')
    · rename_i hxy
      have hyx : r y x = true := by
        rcases htot x y with h1 | h1
        · exact absurd h1 hxy
        · exact h1
      refine List.Pairwise.cons ?_ (ih hys)
      intro z hz
      rcases (mem_insertS r x ys z).mp hz with rfl | hz'
      · exact hyx
      · exact hy z hz'

theorem isort_pairwise (r : α → α → Bool)
    (htot : ∀ a b, r a b = true ∨ r b a = true)
    (htrans : ∀ a b c, r a b = true → r b c = true → r a c = true)
    (l : List α) : (isort r l).Pairwise (fun a b => r a b = true) := by
  induction l with
  | nil => simp [isort]
  | cons x xs ih => exact insertS_pairwise r htot htrans x (isort r xs) ih

theorem isort_length (r : α → α → Bool) (l : List α) :
    (isort r l).length = l.length := by
  induction l with
  | nil => rfl
  | cons x xs ih => simp [isort, insertS_length, ih]

theorem mem_isort (r : α → α → Bool) (l : List α) (z : α) :
    z ∈ isort r l ↔ z ∈ l := by
  induction l with
  | nil => simp [isort]
  | cons x xs ih => simp [isort, mem_insertS, ih]

theorem keyGE_total (k1 k2 : Int × Int × Int) :
    keyGE k1 k2 = true ∨ keyGE k2 k1 = true := by
  simp only [keyGE, decide_eq_true_eq]
  omega

theorem keyGE_trans (k1 k2 k3 : Int × Int × Int)
    (h1 : keyGE k1 k2 = true) (h2 : keyGE k2 k3 = true) :
    keyGE k1 k3 = true := by
  simp only [keyGE, decide_eq_true_eq] at *
  omega

theorem mem_dedupFirst_go (l : List String) (seen : List String) (z : String) :
    z ∈ dedupFirst.go seen l ↔ z ∈ l ∧ z ∉ seen := by
  induction l generalizing seen with
  | nil => simp [dedupFirst.go]
  | cons x xs ih =>
    simp only [dedupFirst.go]
    split
    · rename_i hx
      rw [ih]
      simp only [List.mem_cons]
      constructor
      · rintro ⟨h1, h2⟩
        exact ⟨Or.inr h1, h2⟩
      · rintro ⟨rfl | h1, h2⟩
        · exact absurd hx h2
        · exact ⟨h1, h2⟩
    · rename_i hx
      simp only [List.mem_cons, ih, List.mem_cons]
      constructor
      · rintro (rfl | ⟨h1, h2⟩)
        · exact ⟨Or.inl rfl, hx⟩
        · exact ⟨Or.inr h1, fun hc => h2 (Or.inr hc)⟩
      · rintro ⟨rfl | h1, h2⟩
        · exact Or.inl rfl
        · by_cases hzx : z = x
          · exact Or.inl hzx
          · exact Or.inr ⟨h1, fun hc => hc.elim hzx h2⟩

theorem mem_labelUnion (a b : List (String × Int)) (z : String) :
    z ∈ labelUnion a b ↔ z ∈ a.map Prod.fst ∨ z ∈ b.map Prod.fst := by
  simp [labelUnion, dedupFirst, mem_dedupFirst_go]

/-- The compare-consistency block only ever produces a fully-paired true
state or a fully-nulled false state. -/
theorem compareTriple_shape (t : String) (i : JObj) (p : Option JObj) :
    (∃ a b, compareTriple t i p = (true, some a, some b)) ∨
      compareTriple t i p = (false, none, none) := by
  unfold compareTriple
  split
  · split
    · exact Or.inr rfl
    · split
      · rename_i a b h1 h2
        exact Or.inl ⟨a, b, rfl⟩
      · exact Or.inr rfl
  · exact Or.inr rfl

/-- The resolved mark is always one of the three valid tokens. -/
theorem normMark_valid (v : JVal) :
    normMark v = "bar" ∨ normMark v = "line" ∨ normMark v = "area" := by
  unfold normMark
  split
  · rename_i s heq
    split
    · rename_i hs
      simp only [Bool.or_eq_true, beq_iff_eq] at hs
      tauto
    · exact Or.inl rfl
  · exact Or.inl rfl

/-- Blank-string normalization never returns a blank string. -/
theorem normBlankToNull_notBlank (v : JVal) :
    isBlankStr (normBlankToNull v) = false := by
  unfold normBlankToNull
  split
  · rfl
  · rename_i h
    simpa using h

/-- `find?` over a list splits it at the first hit. -/
theorem find?_split {p : α → Bool} {l : List α} {a : α}
    (h : l.find? p = some a) :
    p a = true ∧ ∃ l1 l2, l = l1 ++ a :: l2 ∧ ∀ x ∈ l1, p x = false := by
  induction l with
  | nil => simp [List.find?] at h
  | cons x xs ih =>
    rw [List.find?] at h
    split at h
    · rename_i hx
      cases h
      exact ⟨hx, [], xs, rfl, by simp⟩
    · rename_i hx
      obtain ⟨hp, l1, l2, rfl, hl1⟩ := ih h
      refine ⟨hp, x :: l1, l2, rfl, ?_⟩
      intro z hz
      rcases List.mem_cons.mp hz with rfl | hz'
      · exact Bool.not_eq_true _ ▸ (by simpa using hx)
      · exact hl1 z hz'

theorem yearRange_length (a b : Int) (h : a ≤ b) :
    ((yearRange a b).length : Int) = b - a + 1 := by
  simp only [yearRange, List.length_map, List.length_range]
  omega

theorem yearRange_getElem (a b : Int) (i : Nat) (hi : i < (yearRange a b).length) :
    (yearRange a b)[i] = a + i := by
  simp only [yearRange] at hi ⊢
  simp only [List.length_map, List.length_range] at hi
  rw [List.getElem_map, List.getElem_range]

theorem yearRange_pairwise (a b : Int) :
    (yearRange a b).Pairwise (· < ·) := by
  unfold yearRange
  refine List.Pairwise.map _ ?_ (List.pairwise_lt_range _)
  intro m n hmn
  omega

theorem mem_yearRange (a b y : Int) :
    y ∈ yearRange a b ↔ a ≤ y ∧ y ≤ b := by
  simp only [yearRange, List.mem_map, List.mem_range]
  constructor
  · rintro ⟨k, hk, rfl⟩
    omega
  · rintro ⟨h1, h2⟩
    exact ⟨(y - a).toNat, by omega, by omega⟩

/-- Whether `pat` occurs as a contiguous substring of `l` (used to state
the "text containing" hypothesis of the override claims). -/
def containsSub (pat : String) (t : String) : Bool :=
  (searchPos (fun _ r => matchLit pat.toList r) none t.toList).isSome

/-- The year of a time-series row (projection used to state ordering). -/
def rowYear : Row → Int
  | .year y _ => y
  | .gyear _ y _ => y
  | _ => 0

/-! ### Claim theorems -/

/-- C3: for every plan returned by the planner — any user text, any
previous plan, any syntactically valid interpreted object — `compare` is
true iff both compare bounds are non-null integers, and whenever
`compare` resolves to false both compare bounds are null. -/
theorem compare_all_or_nothing_spec (t : String) (i : JObj) (p : Option JObj) :
    ((resolvePlan t i p).compare = true ↔
      ((resolvePlan t i p).compare_year_from.isSome = true ∧
       (resolvePlan t i p).compare_year_to.isSome = true)) ∧
    ((resolvePlan t i p).compare = false →
      (resolvePlan t i p).compare_year_from = none ∧
      (resolvePlan t i p).compare_year_to = none) := by
  have hc : (resolvePlan t i p).compare = (compareTriple t i p).1 := rfl
  have hf : (resolvePlan t i p).compare_year_from = (compareTriple t i p).2.1 := rfl
  have ht : (resolvePlan t i p).compare_year_to = (compareTriple t i p).2.2 := rfl
  rcases compareTriple_shape t i p with ⟨a, b, heq⟩ | heq <;>
    rw [hc, hf, ht, heq] <;> simp

/-- C6: once the interpretation response has been parsed into a dict, the
planner's remaining repair pipeline (chart-type fallback, inheritance,
defaults, pattern overrides, normalization, coercion, compare
consistency) never raises: it is modelled by the total function
`resolvePlan`, and on every input it produces a plan with all field-level
malformations repaired in place (valid mark token, no blank
doctype/color, consistent compare state, integer/float numeric fields by
construction). -/
theorem planner_repair_total_spec (t : String) (i : JObj) (p : Option JObj) :
    ∃ P : ResolvedPlan, resolvePlan t i p = P ∧
      (P.mark = "bar" ∨ P.mark = "line" ∨ P.mark = "area") ∧
      isBlankStr P.doctype = false ∧
      isBlankStr P.color = false ∧
      (P.compare = false → P.compare_year_from = none ∧ P.compare_year_to = none) ∧
      (P.compare = true →
        P.compare_year_from.isSome = true ∧ P.compare_year_to.isSome = true) := by
  refine ⟨resolvePlan t i p, rfl, normMark_valid _, normBlankToNull_notBlank _,
    normBlankToNull_notBlank _, ?_, ?_⟩ <;>
  · intro h
    have hc : (resolvePlan t i p).compare = (compareTriple t i p).1 := rfl
    have hf : (resolvePlan t i p).compare_year_from = (compareTriple t i p).2.1 := rfl
    have ht : (resolvePlan t i p).compare_year_to = (compareTriple t i p).2.2 := rfl
    rcases compareTriple_shape t i p with ⟨a, b, heq⟩ | heq <;>
      rw [hf, ht, heq] <;> rw [hc, heq] at h <;> simp_all

/-- C2: for every `year_from ≤ year_to` and every (possibly sparse)
backend result, the rows produced by `data_agent` for a non-compare
by-time plan are exactly one per integer year in the window, in strictly
ascending year order, with count 0 for every year the backend omitted. -/
theorem yearRows_densification_spec (bk : Backend) (plan : ResolvedPlan)
    (h1 : plan.chart_type = JVal.jstr "papers_by_year")
    (h2 : plan.compare = false)
    (h3 : plan.year_from ≤ plan.year_to) :
    ∃ pay : Payload, data_agent bk plan = Except.ok pay ∧
      (pay.data.length : Int) = plan.year_to - plan.year_from + 1 ∧
      (∀ (j : Nat) (hj : j < pay.data.length),
        pay.data[j] = Row.year (plan.year_from + j)
          ((pyDictGet (bk.papers_by_year plan.year_from plan.year_to
            (orNull plan.doctype)) (plan.year_from + j)).getD 0)) ∧
      pay.data.Pairwise (fun r s => rowYear r < rowYear s) ∧
      (∀ y : Int, plan.year_from ≤ y → y ≤ plan.year_to →
        pyDictGet (bk.papers_by_year plan.year_from plan.year_to
          (orNull plan.doctype)) y = none →
        Row.year y 0 ∈ pay.data) := by
  have hda : data_agent bk plan = Except.ok
      ⟨plan.chart_type, plan,
        yearRows bk plan.year_from plan.year_to (orNull plan.doctype)⟩ := by
    simp [data_agent, h1, h2, jvalEqStr]
  refine ⟨_, hda, ?_, ?_, ?_, ?_⟩
  · show ((yearRows bk plan.year_from plan.year_to (orNull plan.doctype)).length : Int) = _
    simp only [yearRows, List.length_map]
    exact yearRange_length _ _ h3
  · intro j hj
    show (yearRows bk plan.year_from plan.year_to (orNull plan.doctype))[j] = _
    simp only [yearRows] at hj ⊢
    simp only [List.length_map] at hj
    rw [List.getElem_map, yearRange_getElem _ _ _ hj]
  · show (yearRows bk plan.year_from plan.year_to (orNull plan.doctype)).Pairwise _
    simp only [yearRows]
    rw [List.pairwise_map]
    refine (yearRange_pairwise _ _).imp ?_
    intro a b hab
    simpa [rowYear] using hab
  · intro y hy1 hy2 hnone
    show Row.year y 0 ∈ yearRows bk plan.year_from plan.year_to (orNull plan.doctype)
    simp only [yearRows]
    refine List.mem_map.mpr ⟨y, (mem_yearRange _ _ _).mpr ⟨hy1, hy2⟩, ?_⟩
    rw [hnone]
    rfl

/-- Witness for C2 at a concrete sparse backend: window 2020-2022 with the
backend reporting only 2021. -/
theorem yearRows_densification_spec_witness :
    (2020 : Int) ≤ 2022 ∧
    ∃ pay : Payload,
      data_agent
        ⟨fun _ _ _ => [(2021, 7)], fun _ _ _ _ _ _ => []⟩
        ⟨JVal.jstr "papers_by_year", 2020, 2022, JVal.jnull, 1, 3 / 10, 25,
          JVal.jnull, "bar", false, none, none⟩ = Except.ok pay ∧
      (pay.data.length : Int) = 3 := by
  refine ⟨by decide, ?_⟩
  obtain ⟨pay, hok, hlen, -, -, -⟩ :=
    yearRows_densification_spec
      ⟨fun _ _ _ => [(2021, 7)], fun _ _ _ _ _ _ => []⟩
      ⟨JVal.jstr "papers_by_year", 2020, 2022, JVal.jnull, 1, 3 / 10, 25,
        JVal.jnull, "bar", false, none, none⟩
      rfl rfl (by decide)
  exact ⟨pay, hok, by simpa using hlen⟩

/-- C7: for every plan whose `chart_type` is neither supported enum value,
both the data aggregator and the visualization renderer raise a hard
error whose message names the unsupported value, never substituting a
default aggregation dimension. -/
theorem unsupported_chart_type_error_spec (bk : Backend) (plan : ResolvedPlan)
    (pay : Payload)
    (h1 : jvalEqStr plan.chart_type "papers_by_year" = false)
    (h2 : jvalEqStr plan.chart_type "papers_by_field" = false)
    (h3 : jvalEqStr pay.chart_type "papers_by_year" = false)
    (h4 : jvalEqStr pay.chart_type "papers_by_field" = false) :
    data_agent bk plan =
      Except.error ("Unsupported chart_type: " ++ pyStr plan.chart_type) ∧
    viz_agent pay =
      Except.error ("Unsupported chart_type: " ++ pyStr pay.chart_type) := by
  constructor
  · simp [data_agent, h1, h2]
  · simp [viz_agent, h3, h4]

/-- Witness for C7 at the concrete unsupported value `"banana"`. -/
theorem unsupported_chart_type_error_spec_witness :
    jvalEqStr (JVal.jstr "banana") "papers_by_year" = false ∧
    data_agent
      ⟨fun _ _ _ => [], fun _ _ _ _ _ _ => []⟩
      ⟨JVal.jstr "banana", 2020, 2024, JVal.jnull, 1, 3 / 10, 25,
        JVal.jnull, "bar", false, none, none⟩ =
      Except.error "Unsupported chart_type: banana" ∧
    viz_agent
      ⟨JVal.jstr "banana",
        ⟨JVal.jstr "banana", 2020, 2024, JVal.jnull, 1, 3 / 10, 25,
          JVal.jnull, "bar", false, none, none⟩, []⟩ =
      Except.error "Unsupported chart_type: banana" := by
  obtain ⟨hA, hB⟩ :=
    unsupported_chart_type_error_spec
      ⟨fun _ _ _ => [], fun _ _ _ _ _ _ => []⟩
      ⟨JVal.jstr "banana", 2020, 2024, JVal.jnull, 1, 3 / 10, 25,
        JVal.jnull, "bar", false, none, none⟩
      ⟨JVal.jstr "banana",
        ⟨JVal.jstr "banana", 2020, 2024, JVal.jnull, 1, 3 / 10, 25,
          JVal.jnull, "bar", false, none, none⟩, []⟩
      rfl rfl rfl rfl
  exact ⟨rfl, hA, hB⟩

/-- C4 counterexample: the text
`"1999-2000 vs 2020-2022 vs 2023-2024"` contains
`"2020-2022 vs 2023-2024"`, yet `re.search` is leftmost, so the resolved
plan has `year_from = 1999` and `compare_year_from = some 2020` — not the
claimed `year_from = 2020`, `compare_year_from = some 2023`. -/
theorem compare_override_containing_text_counterexample :
    containsSub "2020-2022 vs 2023-2024"
      "1999-2000 vs 2020-2022 vs 2023-2024" = true ∧
    (resolvePlan "1999-2000 vs 2020-2022 vs 2023-2024" [] none).compare = true ∧
    (resolvePlan "1999-2000 vs 2020-2022 vs 2023-2024" [] none).year_from = 1999 ∧
    (resolvePlan "1999-2000 vs 2020-2022 vs 2023-2024" [] none).compare_year_from
      = some 2020 ∧
    ¬((resolvePlan "1999-2000 vs 2020-2022 vs 2023-2024" [] none).year_from
        = 2020) := by
  refine ⟨by decide, rfl, rfl, rfl, by decide⟩

/-- C4 amended: for the exact user text `"2020-2022 vs 2023-2024"` (and
any text on which the compare pattern's leftmost match captures these four
years), the deterministic override wins over every interpreted object and
every previous plan: the resolved plan has `compare = true`,
`year_from = 2020`, `year_to = 2022`, `compare_year_from = 2023`,
`compare_year_to = 2024`. -/
theorem compare_override_exact_text_spec (i : JObj) (p : Option JObj) :
    (resolvePlan "2020-2022 vs 2023-2024" i p).compare = true ∧
    (resolvePlan "2020-2022 vs 2023-2024" i p).year_from = 2020 ∧
    (resolvePlan "2020-2022 vs 2023-2024" i p).year_to = 2022 ∧
    (resolvePlan "2020-2022 vs 2023-2024" i p).compare_year_from = some 2023 ∧
    (resolvePlan "2020-2022 vs 2023-2024" i p).compare_year_to = some 2024 := by
  have hc : parseCompareRanges "2020-2022 vs 2023-2024" =
      some (2020, 2022, 2023, 2024) := by decide
  refine ⟨?_, ?_, ?_, ?_, ?_⟩ <;>
    simp [resolvePlan, compareTriple, compareRaw, compareFromRaw, compareToRaw,
      hc, pyTruthy, isNullV, pyIntOpt, toIntDef]

/-- C8 counterexample: the user text `"top_k 0"` resolves to
`top_k = 0`, which is not a positive integer. -/
theorem top_k_positive_counterexample :
    (resolvePlan "top_k 0" [] none).top_k = 0 ∧
    ¬(1 ≤ (resolvePlan "top_k 0" [] none).top_k) := by
  exact ⟨rfl, by decide⟩

/-- C8 amended: `top_k` on a resolved plan is always an integer: the text
pattern only ever supplies a nonnegative value (possibly 0, so positivity
is not guaranteed), and when neither the text pattern nor the interpreted
object nor a previous plan supplies a value it is the default 25. -/
theorem top_k_integer_default_spec :
    (∀ (t : String) (n : Int), parseTopK t = some n → 0 ≤ n) ∧
    (∀ (t : String) (i : JObj), parseTopK t = none → jget i "top_k" = none →
      (resolvePlan t i none).top_k = 25) := by
  constructor
  · intro t n h
    rcases Option.map_eq_some'.mp h with ⟨m, -, rfl⟩
    simp
  · intro t i h1 h2
    simp [resolvePlan, h1, h2, fieldOr, inheritedField, prevTruthy,
      toIntDef, pyIntOpt]

/-- Witness for C8 amended: `"top_k 5"` parses to a nonnegative value,
and with no supplied value `top_k` defaults to 25. -/
theorem top_k_integer_default_spec_witness :
    parseTopK "top_k 5" = some 5 ∧ (0 : Int) ≤ 5 ∧
    parseTopK "" = none ∧ (resolvePlan "" [] none).top_k = 25 := by
  exact ⟨rfl, top_k_integer_default_spec.1 "top_k 5" 5 rfl, rfl,
    top_k_integer_default_spec.2 "" [] rfl rfl⟩

/-- C10: when two or more doctype vocabulary words occur as whole words in
the user text, the resolved doctype is the one earliest in the fixed
vocabulary list (not the one earliest in the text): the vocabulary splits
as `l1 ++ k :: l2` with no word of `l1` occurring in the text. -/
theorem doctype_priority_spec (t : String) (i : JObj) (p : Option JObj)
    (h : 2 ≤ (docVocab.filter (fun k => containsWord (pyLower t) k)).length) :
    ∃ (k : String) (l1 l2 : List String),
      parseDoctype t = some k ∧
      (resolvePlan t i p).doctype = JVal.jstr k ∧
      containsWord (pyLower t) k = true ∧
      docVocab = l1 ++ k :: l2 ∧
      (∀ w ∈ l1, containsWord (pyLower t) w = false) := by
  have hsome : ∃ k, parseDoctype t = some k := by
    have hne : docVocab.filter (fun k => containsWord (pyLower t) k) ≠ [] := by
      intro hcon
      rw [hcon] at h
      simp at h
    rcases List.exists_mem_of_ne_nil _ hne with ⟨x, hx⟩
    have hx2 := List.mem_filter.mp hx
    have : (docVocab.find? (fun k => containsWord (pyLower t) k)).isSome := by
      rw [List.find?_isSome]
      exact ⟨x, hx2.1, hx2.2⟩
    exact Option.isSome_iff_exists.mp this
  obtain ⟨k, hk⟩ := hsome
  obtain ⟨hpk, l1, l2, hsplit, hl1⟩ := find?_split hk
  have hkmem : k ∈ docVocab := by
    rw [hsplit]
    simp
  have hkblank : isBlankStr (JVal.jstr k) = false := by
    fin_cases hkmem <;> decide
  have hdoc : (resolvePlan t i p).doctype = normBlankToNull
      (match parseDoctype t with
       | some k => JVal.jstr k
       | none => fieldOr i p "doctype" JVal.jnull) := rfl
  refine ⟨k, l1, l2, hk, ?_, hpk, hsplit, hl1⟩
  rw [hdoc, hk]
  simp [normBlankToNull, hkblank]

/-- Witness for C10: `"the journal has an article"` contains both
`journal` and `article` as whole words (with `journal` first in the
text), yet resolves to `doctype = "article"`, the vocabulary-priority
winner. -/
theorem doctype_priority_spec_witness :
    2 ≤ (docVocab.filter
      (fun k => containsWord (pyLower "the journal has an article") k)).length ∧
    (resolvePlan "the journal has an article" [] none).doctype =
      JVal.jstr "article" := by
  obtain ⟨k, l1, l2, hfind, hdoc, -, -, -⟩ :=
    doctype_priority_spec "the journal has an article" [] none (by decide)
  have hk : k = "article" := by
    have : some "article" = some k := by
      rw [← hfind]
      decide
    exact (Option.some.injEq _ _ ▸ this).symm
  exact ⟨by decide, hk ▸ hdoc⟩

/-- The group-A candidate rows of label compare mode (agent.py line 322):
the primary window queried with the enlarged pool `max(top_k * 5, 200)`. -/
def compareFieldA (bk : Backend) (plan : ResolvedPlan) : List (String × Int) :=
  fieldRows bk plan.year_from plan.year_to (orNull plan.doctype)
    plan.field_level plan.field_score_min (max (plan.top_k * 5) 200)

/-- The group-B candidate rows of label compare mode (agent.py line 323):
the compare window queried with the enlarged pool. -/
def compareFieldB (bk : Backend) (plan : ResolvedPlan) (cf ct2 : Int) :
    List (String × Int) :=
  fieldRows bk cf ct2 (orNull plan.doctype)
    plan.field_level plan.field_score_min (max (plan.top_k * 5) 200)

/-- C1: in compare mode for label charts, `data_agent` ranks the union of
the two groups' label sets descending by the tuple
`(count_A + count_B, count_A, count_B)`, keeps the first `top_k` labels,
and emits one row per kept label for group A followed by one row per kept
label for group B in the same kept-label order, with a label missing from
a group reported with count 0.  (The union's tie order stands in for the
unspecified iteration order of a Python `set`.) -/
theorem labelCompare_ranking_spec (bk : Backend) (plan : ResolvedPlan)
    (cf ct2 : Int)
    (h1 : plan.chart_type = JVal.jstr "papers_by_field")
    (h2 : plan.compare = true)
    (h3 : plan.compare_year_from = some cf)
    (h4 : plan.compare_year_to = some ct2)
    (h5 : 0 ≤ plan.top_k) :
    ∃ pay : Payload, data_agent bk plan = Except.ok pay ∧
      pay.data =
        (keptLabels (compareFieldA bk plan) (compareFieldB bk plan cf ct2)
          plan.top_k).map (fun f => Row.gfld "A" f
            ((pyDictGet (compareFieldA bk plan) f).getD 0)) ++
        (keptLabels (compareFieldA bk plan) (compareFieldB bk plan cf ct2)
          plan.top_k).map (fun f => Row.gfld "B" f
            ((pyDictGet (compareFieldB bk plan cf ct2) f).getD 0)) ∧
      (keptLabels (compareFieldA bk plan) (compareFieldB bk plan cf ct2)
        plan.top_k).Pairwise (fun f g =>
          keyGE (tupKey (compareFieldA bk plan) (compareFieldB bk plan cf ct2) f)
            (tupKey (compareFieldA bk plan) (compareFieldB bk plan cf ct2) g)
          = true) ∧
      (keptLabels (compareFieldA bk plan) (compareFieldB bk plan cf ct2)
        plan.top_k).length =
        min plan.top_k.toNat
          (labelUnion (compareFieldA bk plan) (compareFieldB bk plan cf ct2)).length ∧
      (∀ f ∈ keptLabels (compareFieldA bk plan) (compareFieldB bk plan cf ct2)
          plan.top_k,
        f ∈ labelUnion (compareFieldA bk plan) (compareFieldB bk plan cf ct2)) ∧
      (∀ f : String,
        f ∈ labelUnion (compareFieldA bk plan) (compareFieldB bk plan cf ct2) ↔
          f ∈ (compareFieldA bk plan).map Prod.fst ∨
          f ∈ (compareFieldB bk plan cf ct2).map Prod.fst) := by
  have hda : data_agent bk plan = Except.ok
      ⟨plan.chart_type, plan,
        (keptLabels (compareFieldA bk plan) (compareFieldB bk plan cf ct2)
          plan.top_k).map (fun f => Row.gfld "A" f
            ((pyDictGet (compareFieldA bk plan) f).getD 0)) ++
        (keptLabels (compareFieldA bk plan) (compareFieldB bk plan cf ct2)
          plan.top_k).map (fun f => Row.gfld "B" f
            ((pyDictGet (compareFieldB bk plan cf ct2) f).getD 0))⟩ := by
    simp [data_agent, h1, h2, h3, h4, jvalEqStr, compareFieldA, compareFieldB]
  have hkept : keptLabels (compareFieldA bk plan) (compareFieldB bk plan cf ct2)
      plan.top_k =
      (isort (fun f g =>
        keyGE (tupKey (compareFieldA bk plan) (compareFieldB bk plan cf ct2) f)
          (tupKey (compareFieldA bk plan) (compareFieldB bk plan cf ct2) g))
        (labelUnion (compareFieldA bk plan) (compareFieldB bk plan cf ct2))).take
        plan.top_k.toNat := by
    simp [keptLabels, pySlice, h5]
  refine ⟨_, hda, rfl, ?_, ?_, ?_, ?_⟩
  · rw [hkept]
    refine List.Pairwise.sublist (List.take_sublist _ _) ?_
    apply isort_pairwise
    · exact fun a b => keyGE_total _ _
    · exact fun a b c hab hbc => keyGE_trans _ _ _ hab hbc
  · rw [hkept, List.length_take, isort_length]
  · intro f hf
    rw [hkept] at hf
    have := List.take_subset _ _ hf
    exact (mem_isort _ _ _).mp this
  · intro f
    exact mem_labelUnion _ _ f

/-- Witness for C1: group-A counts `x:10, y:5`, group-B counts
`x:1, z:8`, `top_k = 2` — the kept labels are `[x, z]`, `y` is absent
entirely, and `z` has count 0 under group A. -/
theorem labelCompare_ranking_spec_witness :
    (0 : Int) ≤ 2 ∧
    ∃ pay : Payload,
      data_agent
        ⟨fun _ _ _ => [], fun yf _ _ _ _ _ =>
          if yf == 2020 then [("x", 10), ("y", 5)] else [("x", 1), ("z", 8)]⟩
        ⟨JVal.jstr "papers_by_field", 2020, 2021, JVal.jnull, 1, 3 / 10, 2,
          JVal.jnull, "bar", true, some 2023, some 2024⟩ = Except.ok pay ∧
      pay.data = [Row.gfld "A" "x" 10, Row.gfld "A" "z" 0,
                  Row.gfld "B" "x" 1, Row.gfld "B" "z" 8] := by
  refine ⟨by decide, ?_⟩
  obtain ⟨pay, hok, hdata, -, -, -, -⟩ :=
    labelCompare_ranking_spec
      ⟨fun _ _ _ => [], fun yf _ _ _ _ _ =>
        if yf == 2020 then [("x", 10), ("y", 5)] else [("x", 1), ("z", 8)]⟩
      ⟨JVal.jstr "papers_by_field", 2020, 2021, JVal.jnull, 1, 3 / 10, 2,
        JVal.jnull, "bar", true, some 2023, some 2024⟩
      2023 2024 rfl rfl rfl rfl (by decide)
  refine ⟨pay, hok, ?_⟩
  rw [hdata]
  decide

/-- C9 amended: in the chart descriptor, an explicit mark color appears
iff `compare` is false and the plan's color is *truthy* (non-null,
non-empty, non-zero, non-false — Python truthiness, not mere
non-nullness); for every compare-mode payload the renderer accepts, the
mark carries no explicit color and the color encoding channel is bound to
the `group` field. -/
theorem mark_color_truthy_spec (pay : Payload) (out : VizOut)
    (h : viz_agent pay = Except.ok out) :
    out.spec.mark.color =
      (if pay.plan.compare = false ∧ pyTruthy pay.plan.color = true
       then some pay.plan.color else none) ∧
    (pay.plan.compare = true →
      out.spec.encoding.color = some ⟨"group", "nominal", "Group"⟩) := by
  simp only [viz_agent] at h
  split at h
  · rw [Except.ok.injEq] at h
    subst h
    constructor
    · show (if (!pay.plan.compare && pyTruthy (orNull pay.plan.color)) = true
          then some (orNull pay.plan.color) else none) = _
      by_cases hc : pay.plan.compare <;>
        by_cases ht : pyTruthy pay.plan.color = true <;>
          (simp [orNull, hc, ht]; try rfl)
    · intro hc
      show (if pay.plan.compare = true then some _ else none) = _
      simp [hc]
  · split at h
    · rw [Except.ok.injEq] at h
      subst h
      constructor
      · show (if (!pay.plan.compare && pyTruthy (orNull pay.plan.color)) = true
            then some (orNull pay.plan.color) else none) = _
        by_cases hc : pay.plan.compare <;>
          by_cases ht : pyTruthy pay.plan.color = true <;>
            (simp [orNull, hc, ht]; try rfl)
      · intro hc
        show (if pay.plan.compare = true then some _ else none) = _
        simp [hc]
    · exact Except.noConfusion h

/-- Witness for C9 amended at a concrete compare-mode payload: the mark
carries no color and the color channel encodes the group. -/
theorem mark_color_truthy_spec_witness :
    ∃ out : VizOut,
      viz_agent
        ⟨JVal.jstr "papers_by_year",
          ⟨JVal.jstr "papers_by_year", 2020, 2022, JVal.jnull, 1, 3 / 10, 25,
            JVal.jstr "red", "bar", true, some 2023, some 2024⟩, []⟩ =
        Except.ok out ∧
      out.spec.mark.color = none ∧
      out.spec.encoding.color = some ⟨"group", "nominal", "Group"⟩ := by
  have hv : ∃ out : VizOut,
      viz_agent
        ⟨JVal.jstr "papers_by_year",
          ⟨JVal.jstr "papers_by_year", 2020, 2022, JVal.jnull, 1, 3 / 10, 25,
            JVal.jstr "red", "bar", true, some 2023, some 2024⟩, []⟩ =
        Except.ok out := ⟨_, rfl⟩
  obtain ⟨out, hout⟩ := hv
  obtain ⟨h1, h2⟩ := mark_color_truthy_spec _ out hout
  refine ⟨out, hout, ?_, h2 rfl⟩
  rw [h1]
  simp

/-- C9 counterexample: a resolver-produced plan can carry the non-null
falsy color `0` (`{"color": 0}` from the interpretation step survives
repair); with `compare = false` the claimed iff demands an explicit mark
color, yet the renderer emits none, because the source tests Python
truthiness (`plan.get("color") or None`), not non-nullness. -/
theorem mark_color_nonnull_counterexample :
    (resolvePlan ""
      [("chart_type", JVal.jstr "papers_by_year"), ("color", JVal.jint 0)]
      none).color = JVal.jint 0 ∧
    ¬((resolvePlan ""
      [("chart_type", JVal.jstr "papers_by_year"), ("color", JVal.jint 0)]
      none).color = JVal.jnull) ∧
    (resolvePlan ""
      [("chart_type", JVal.jstr "papers_by_year"), ("color", JVal.jint 0)]
      none).compare = false ∧
    ∃ (pay : Payload) (out : VizOut),
      data_agent ⟨fun _ _ _ => [], fun _ _ _ _ _ _ => []⟩
        (resolvePlan ""
          [("chart_type", JVal.jstr "papers_by_year"), ("color", JVal.jint 0)]
          none) = Except.ok pay ∧
      viz_agent pay = Except.ok out ∧
      out.spec.mark.color = none := by
  refine ⟨rfl, fun h => JVal.noConfusion h, rfl, _, _, rfl, rfl, rfl⟩

/-- An absent-or-null interpreted key reads back as `None`. -/
theorem jgetD_null_of_absent {i : JObj} {k : String}
    (h : absentOrNull (jget i k) = true) : jgetD i k = JVal.jnull := by
  unfold jgetD
  cases hv : jget i k with
  | none => rfl
  | some v =>
    cases v <;> simp_all [absentOrNull]

/-- With a truthy previous plan and an absent-or-null interpreted value,
inheritance plus default fill reads the previous plan's value. -/
theorem fieldOr_planToDict (i : JObj) (P : ResolvedPlan) (k : String) (d : JVal)
    (h : absentOrNull (jget i k) = true) :
    fieldOr i (some (planToDict P)) k d = jgetD (planToDict P) k := by
  have hcond : (prevTruthy (some (planToDict P)) && absentOrNull (jget i k))
      = true := by
    rw [h]
    rfl
  simp only [fieldOr, inheritedField, hcond]
  rfl

/-- `normMark` fixes the three valid tokens. -/
theorem normMark_fixed (s : String)
    (h : s = "bar" ∨ s = "line" ∨ s = "area") :
    normMark (JVal.jstr s) = s := by
  rcases h with rfl | rfl | rfl <;> rfl

/-- `normBlankToNull` fixes non-blank values. -/
theorem normBlank_fixed (v : JVal) (h : isBlankStr v = false) :
    normBlankToNull v = v := by
  simp [normBlankToNull, h]

/-- C5: resolving is idempotent on its own output — for every
fully-populated plan produced by a previous resolution, resolving with
empty user text, that plan as the previous plan, and an interpreted
object whose plan fields are all absent or null yields the identical
plan in every field. -/
theorem planner_idempotence_spec (t0 : String) (i0 : JObj) (p0 : Option JObj)
    (i : JObj)
    (hnull : ∀ k ∈ planKeys, absentOrNull (jget i k) = true) :
    resolvePlan "" i (some (planToDict (resolvePlan t0 i0 p0))) =
      resolvePlan t0 i0 p0 := by
  have hct := hnull "chart_type" (by simp [planKeys])
  have hyf := hnull "year_from" (by simp [planKeys])
  have hyt := hnull "year_to" (by simp [planKeys])
  have hdt := hnull "doctype" (by simp [planKeys])
  have hfl := hnull "field_level" (by simp [planKeys])
  have hfs := hnull "field_score_min" (by simp [planKeys])
  have htk := hnull "top_k" (by simp [planKeys])
  have hcol := hnull "color" (by simp [planKeys])
  have hmk := hnull "mark" (by simp [planKeys])
  have hcmp := hnull "compare" (by simp [planKeys])
  have hcyf := hnull "compare_year_from" (by simp [planKeys])
  have hcyt := hnull "compare_year_to" (by simp [planKeys])
  have htrip : compareTriple "" i (some (planToDict (resolvePlan t0 i0 p0))) =
      compareTriple t0 i0 p0 := by
    have hc : compareRaw "" i (some (planToDict (resolvePlan t0 i0 p0))) =
        JVal.jbool (resolvePlan t0 i0 p0).compare := by
      show fieldOr i (some (planToDict (resolvePlan t0 i0 p0))) "compare"
        (JVal.jbool false) = _
      rw [fieldOr_planToDict i _ _ _ hcmp]
      rfl
    have hcf : compareFromRaw "" i (some (planToDict (resolvePlan t0 i0 p0))) =
        optIntToJVal (resolvePlan t0 i0 p0).compare_year_from := by
      show fieldOr i (some (planToDict (resolvePlan t0 i0 p0)))
        "compare_year_from" JVal.jnull = _
      rw [fieldOr_planToDict i _ _ _ hcyf]
      rfl
    have hct2 : compareToRaw "" i (some (planToDict (resolvePlan t0 i0 p0))) =
        optIntToJVal (resolvePlan t0 i0 p0).compare_year_to := by
      show fieldOr i (some (planToDict (resolvePlan t0 i0 p0)))
        "compare_year_to" JVal.jnull = _
      rw [fieldOr_planToDict i _ _ _ hcyt]
      rfl
    have hc1 : (resolvePlan t0 i0 p0).compare = (compareTriple t0 i0 p0).1 := rfl
    have hc2 : (resolvePlan t0 i0 p0).compare_year_from =
      (compareTriple t0 i0 p0).2.1 := rfl
    have hc3 : (resolvePlan t0 i0 p0).compare_year_to =
      (compareTriple t0 i0 p0).2.2 := rfl
    rcases compareTriple_shape t0 i0 p0 with ⟨a, b, heq⟩ | heq
    · rw [heq]
      rw [heq] at hc1 hc2 hc3
      simp only [compareTriple, hc, hcf, hct2, hc1, hc2, hc3]
      rfl
    · rw [heq]
      rw [heq] at hc1 hc2 hc3
      simp only [compareTriple, hc, hcf, hct2, hc1, hc2, hc3]
      rfl
  apply ResolvedPlan.ext
  · -- chart_type
    show chartTypeField i (some (planToDict (resolvePlan t0 i0 p0))) =
      (resolvePlan t0 i0 p0).chart_type
    simp only [chartTypeField, jgetD_null_of_absent hct]
    rfl
  · -- year_from
    show toIntDef (fieldOr i (some (planToDict (resolvePlan t0 i0 p0)))
      "year_from" (JVal.jint 2020)) 2020 = (resolvePlan t0 i0 p0).year_from
    rw [fieldOr_planToDict i _ _ _ hyf]
    rfl
  · -- year_to
    show toIntDef (fieldOr i (some (planToDict (resolvePlan t0 i0 p0)))
      "year_to" (JVal.jint 2024)) 2024 = (resolvePlan t0 i0 p0).year_to
    rw [fieldOr_planToDict i _ _ _ hyt]
    rfl
  · -- doctype
    show normBlankToNull (fieldOr i (some (planToDict (resolvePlan t0 i0 p0)))
      "doctype" JVal.jnull) = (resolvePlan t0 i0 p0).doctype
    rw [fieldOr_planToDict i _ _ _ hdt]
    show normBlankToNull (resolvePlan t0 i0 p0).doctype = _
    exact normBlank_fixed _ (normBlankToNull_notBlank _)
  · -- field_level
    show toIntDef (fieldOr i (some (planToDict (resolvePlan t0 i0 p0)))
      "field_level" (JVal.jint 1)) 1 = (resolvePlan t0 i0 p0).field_level
    rw [fieldOr_planToDict i _ _ _ hfl]
    rfl
  · -- field_score_min
    show toFloatDef (fieldOr i (some (planToDict (resolvePlan t0 i0 p0)))
      "field_score_min" (JVal.jfloat (3 / 10))) (3 / 10) =
      (resolvePlan t0 i0 p0).field_score_min
    rw [fieldOr_planToDict i _ _ _ hfs]
    rfl
  · -- top_k
    show toIntDef (fieldOr i (some (planToDict (resolvePlan t0 i0 p0)))
      "top_k" (JVal.jint 25)) 25 = (resolvePlan t0 i0 p0).top_k
    rw [fieldOr_planToDict i _ _ _ htk]
    rfl
  · -- color
    show normBlankToNull (fieldOr i (some (planToDict (resolvePlan t0 i0 p0)))
      "color" JVal.jnull) = (resolvePlan t0 i0 p0).color
    rw [fieldOr_planToDict i _ _ _ hcol]
    show normBlankToNull (resolvePlan t0 i0 p0).color = _
    exact normBlank_fixed _ (normBlankToNull_notBlank _)
  · -- mark
    show normMark (fieldOr i (some (planToDict (resolvePlan t0 i0 p0)))
      "mark" (JVal.jstr "bar")) = (resolvePlan t0 i0 p0).mark
    rw [fieldOr_planToDict i _ _ _ hmk]
    show normMark (JVal.jstr (resolvePlan t0 i0 p0).mark) = _
    exact normMark_fixed _ (normMark_valid _)
  · -- compare
    show (compareTriple "" i (some (planToDict (resolvePlan t0 i0 p0)))).1 = _
    rw [htrip]
    rfl
  · -- compare_year_from
    show (compareTriple "" i (some (planToDict (resolvePlan t0 i0 p0)))).2.1 = _
    rw [htrip]
    rfl
  · -- compare_year_to
    show (compareTriple "" i (some (planToDict (resolvePlan t0 i0 p0)))).2.2 = _
    rw [htrip]
    rfl

/-- Witness for C5 at a concrete first resolution (a compare request
with styling) re-resolved with empty text, an empty interpreted object
and itself as previous plan. -/
theorem planner_idempotence_spec_witness :
    resolvePlan "" []
      (some (planToDict (resolvePlan "compare 2010-2012 vs 2013-2014"
        [("color", JVal.jstr "red"), ("mark", JVal.jstr "line")] none))) =
      resolvePlan "compare 2010-2012 vs 2013-2014"
        [("color", JVal.jstr "red"), ("mark", JVal.jstr "line")] none := by
  exact planner_idempotence_spec "compare 2010-2012 vs 2013-2014"
    [("color", JVal.jstr "red"), ("mark", JVal.jstr "line")] none []
    (fun k _ => rfl)
